import Mathlib

/-!
Verification development for the `lnwire.RevokeAndAck` wire message
(`src/unnamed/part_000`) and the `omnihandler.go` dispatch loop of this
repository.  Go byte slices are modelled as `List Nat` (each element a byte
value), fallible operations return `Option`, and the `io.Reader` consumed by
the codec is modelled as the list of bytes still available: each read either
consumes a prefix or fails, exactly as `io.ReadFull` does.
-/

namespace LnWire

/-- A byte is modelled as a natural number (its value). -/
abbrev Byte := Nat

/-- Modelled from the spec: the shared codec's read primitive (the
`io.ReadFull` calls inside `readElement`, whose source is not under `src/`).
Reading `n` bytes succeeds exactly when the stream still holds at least `n`
bytes, returning those bytes and the remainder of the stream; a short stream
is a decode error (`none`). -/
def readBytes (n : Nat) (s : List Byte) : Option (List Byte × List Byte) :=
  if n ≤ s.length then some (s.take n, s.drop n) else none

/-- Big-endian value of a 4-byte group (a `uint32` on the wire). -/
def beNat4 : List Byte → Nat
  | [a, b, c, d] => ((a * 256 + b) * 256 + c) * 256 + d
  | _ => 0

/-- Big-endian encoding of a `uint32` into 4 bytes. -/
def beBytes4 (n : Nat) : List Byte :=
  [n / 2 ^ 24 % 256, n / 2 ^ 16 % 256, n / 2 ^ 8 % 256, n % 256]

/-- Type `wire.OutPoint`: a 32-byte transaction hash plus a 32-bit output index. -/
structure OutPoint where
  hash : List Byte
  index : Nat
deriving Repr, DecidableEq

/-- The typing invariant the Go struct enforces by construction:
`Hash` is a `[32]byte` array and `Index` a `uint32`. -/
def OutPoint.wf (op : OutPoint) : Prop :=
  op.hash.length = 32 ∧ op.index < 2 ^ 32

instance (op : OutPoint) : Decidable op.wf := by
  unfold OutPoint.wf; infer_instance

/-- Modelled from the spec: `writeElement` for `wire.OutPoint` (its source is
not under `src/`).  The spec fixes the channel-reference encoding overhead at
36 bytes inside the 133-byte total (36 + 32 + 33 + 32): the 32-byte hash
followed by the 4-byte big-endian output index. -/
def writeOutPoint (op : OutPoint) : List Byte :=
  op.hash ++ beBytes4 op.index

/-- Modelled from the spec: `readElement` for `*wire.OutPoint` (its source is
not under `src/`): read the 32-byte hash, then the 4-byte big-endian index. -/
def readOutPoint (s : List Byte) : Option (OutPoint × List Byte) := do
  let (h, s1) ← readBytes 32 s
  let (i, s2) ← readBytes 4 s1
  pure (⟨h, beNat4 i⟩, s2)

/-- Type `btcec.PublicKey` is an external collaborator; it is modelled at its
interface boundary by the 33-byte compressed serialization it carries. -/
structure PublicKey where
  raw : List Byte
deriving Repr, DecidableEq

/-- A well-formed compressed public key: exactly 33 bytes whose leading
format byte is 0x02 or 0x03. -/
def PublicKey.wf (k : PublicKey) : Prop :=
  k.raw.length = 33 ∧ (k.raw.head? = some 2 ∨ k.raw.head? = some 3)

instance (k : PublicKey) : Decidable k.wf := by
  unfold PublicKey.wf; infer_instance

/-- Function `btcec.PublicKey.SerializeCompressed`, modelled at the interface:
the stored 33-byte compressed form. -/
def PublicKey.serializeCompressed (k : PublicKey) : List Byte := k.raw

/-- Function `btcec.ParsePubKey`, modelled at the interface: parsing succeeds exactly
on well-formed 33-byte compressed serializations and returns the key whose
serialization is the input; anything else is an error (`none`). -/
def parsePubKey (bs : List Byte) : Option PublicKey :=
  if bs.length = 33 ∧ (bs.head? = some 2 ∨ bs.head? = some 3) then
    some ⟨bs⟩
  else
    none

/-- Modelled from the spec: `readElement` for `**btcec.PublicKey` (its source
is not under `src/`): read the 33-byte next revocation public key and parse
it; a parse failure is a decode error. -/
def readPublicKey (s : List Byte) : Option (PublicKey × List Byte) := do
  let (kb, s1) ← readBytes 33 s
  let k ← parsePubKey kb
  pure (k, s1)

/-- The `RevokeAndAck` message of `src/unnamed/part_000`: channel point,
32-byte revocation preimage (all-zero for initial-window seeding), next
revocation key, and 32-byte next revocation hash. -/
structure RevokeAndAck where
  ChannelPoint : OutPoint
  Revocation : List Byte
  NextRevocationKey : PublicKey
  NextRevocationHash : List Byte
deriving Repr, DecidableEq

/-- The typing invariant the Go struct enforces by construction: `Revocation`
and `NextRevocationHash` are `[32]byte` arrays, the channel point and key are
well formed. -/
def RevokeAndAck.wf (m : RevokeAndAck) : Prop :=
  m.ChannelPoint.wf ∧ m.Revocation.length = 32 ∧
    m.NextRevocationKey.wf ∧ m.NextRevocationHash.length = 32

instance (m : RevokeAndAck) : Decidable m.wf := by
  unfold RevokeAndAck.wf; infer_instance

/-- Method `RevokeAndAck.Decode` (`src/unnamed/part_000`, lines 60-76): read, in
order, the channel point, the 32-byte revocation, the next revocation public
key, and the 32-byte next revocation hash; the first failing element aborts
with the error (`none`).  The element readers are modelled from the spec as
noted above.  Decode is a pure function of the bytes: a failed decode
produces no message and touches no channel state. -/
def RevokeAndAck.Decode (s : List Byte) : Option RevokeAndAck := do
  let (cp, s1) ← readOutPoint s
  let (rev, s2) ← readBytes 32 s1
  let (k, s3) ← readPublicKey s2
  let (nh, _) ← readBytes 32 s3
  pure ⟨cp, rev, k, nh⟩

/-- Method `RevokeAndAck.Encode` (`src/unnamed/part_000`, lines 82-94): write the
channel point, the revocation bytes, the compressed next revocation key, and
the next revocation hash, in that order (`writeElements` modelled from the
spec as noted above). -/
def RevokeAndAck.Encode (m : RevokeAndAck) : List Byte :=
  writeOutPoint m.ChannelPoint ++ m.Revocation ++
    m.NextRevocationKey.serializeCompressed ++ m.NextRevocationHash

/-- Method `RevokeAndAck.MaxPayloadLength` (`src/unnamed/part_000`, lines 108-111):
`// 36 + 32 + 33 + 32` — returns 133 for every protocol version. -/
def RevokeAndAck.MaxPayloadLength (_pver : Nat) : Nat :=
  133

/-- Method `RevokeAndAck.Validate` (`src/unnamed/part_000`, lines 117-120): the body
is `// We're good!  return nil` — no check is performed and no error is ever
returned (`none` models the `nil` error). -/
def RevokeAndAck.Validate (_m : RevokeAndAck) : Option String :=
  none

end LnWire

namespace Omni

open LnWire (Byte OutPoint writeOutPoint)

/-- Modelled from the spec: the `uwire` message-id constants, whose source is
not under `src/`.  `OmniHandler` compares the id byte against them with `==`
only, so all the claims need is that the seven constants are pairwise
distinct byte values; the concrete values below are representatives. -/
def MSGID_TEXTCHAT : Byte := 0

/-- Modelled from the spec: `uwire` message id, see `MSGID_TEXTCHAT`. -/
def MSGID_PUBREQ : Byte := 1

/-- Modelled from the spec: `uwire` message id, see `MSGID_TEXTCHAT`. -/
def MSGID_PUBRESP : Byte := 2

/-- Modelled from the spec: `uwire` message id, see `MSGID_TEXTCHAT`. -/
def MSGID_MULTIDESC : Byte := 3

/-- Modelled from the spec: `uwire` message id, see `MSGID_TEXTCHAT`. -/
def MSGID_MULTIACK : Byte := 4

/-- Modelled from the spec: `uwire` message id, see `MSGID_TEXTCHAT`. -/
def MSGID_CLOSEREQ : Byte := 5

/-- Modelled from the spec: `uwire` message id, see `MSGID_TEXTCHAT`. -/
def MSGID_CLOSERESP : Byte := 6

/-- What one iteration of `OmniHandler`'s receive loop does with a frame:
either it drops the frame (too short, or unknown id — logging only), prints a
text chat line, or invokes one of the six handlers.  Each handler constructor
records exactly the arguments the Go code passes to that handler:
`PubReqHandler(from)` receives only the sender, every other handler receives
`(from, msg[1:])`. -/
inductive OmniAction where
  | tooShort
  | text (sender : List Byte) (body : List Byte)
  | pubReq (sender : List Byte)
  | pubResp (sender : List Byte) (payload : List Byte)
  | multiDesc (sender : List Byte) (payload : List Byte)
  | multiAck (sender : List Byte) (payload : List Byte)
  | closeReq (sender : List Byte) (payload : List Byte)
  | closeResp (sender : List Byte) (payload : List Byte)
  | unknown (msgid : Byte)
deriving Repr, DecidableEq

/-- Whether the action invokes one of the message handlers (`PubReqHandler`,
`PubRespHandler`, `QChanDescHandler`, `QChanAckHandler`, `CloseReqHandler`,
`CloseRespHandler`).  Dropped frames and text chat lines invoke none. -/
def OmniAction.invokesHandler : OmniAction → Bool
  | .pubReq _ => true
  | .pubResp _ _ => true
  | .multiDesc _ _ => true
  | .multiAck _ _ => true
  | .closeReq _ _ => true
  | .closeResp _ _ => true
  | _ => false

/-- The payload bytes handed to the code run for this frame, when any bytes
are handed over at all: `msg[1:]` for text chat and the five payload-carrying
handlers, nothing for `PubReqHandler` and for dropped frames. -/
def OmniAction.payloadPassed : OmniAction → Option (List Byte)
  | .text _ body => some body
  | .pubResp _ p => some p
  | .multiDesc _ p => some p
  | .multiAck _ p => some p
  | .closeReq _ p => some p
  | .closeResp _ p => some p
  | _ => none

/-- One iteration of `OmniHandler` (`src/omnihandler.go`, lines 78-135) on
the frame `newdata` taken from `OmniChan`: frames shorter than 17 bytes are
dropped (`continue`), otherwise `from` is `newdata[:16]`, `msg` is
`newdata[16:]`, `msgid` is `msg[0]`, and the id selects the handler (which
gets `msg[1:]`, except `PubReqHandler` which gets only `from`); an unmatched
id is logged and the frame dropped (`continue`). -/
def omniStep (newdata : List Byte) : OmniAction :=
  if newdata.length < 17 then
    .tooShort
  else
    let sender := newdata.take 16
    let msg := newdata.drop 16
    let msgid := msg.getD 0 0
    if msgid = MSGID_TEXTCHAT then .text sender (msg.drop 1)
    else if msgid = MSGID_PUBREQ then .pubReq sender
    else if msgid = MSGID_PUBRESP then .pubResp sender (msg.drop 1)
    else if msgid = MSGID_MULTIDESC then .multiDesc sender (msg.drop 1)
    else if msgid = MSGID_MULTIACK then .multiAck sender (msg.drop 1)
    else if msgid = MSGID_CLOSEREQ then .closeReq sender (msg.drop 1)
    else if msgid = MSGID_CLOSERESP then .closeResp sender (msg.drop 1)
    else .unknown msgid

/-- The unbounded `for` loop of `OmniHandler`, observed on a finite prefix of the
frames arriving on `OmniChan`: every iteration ends in `continue`, so each
frame is processed independently and processing always reaches the next
frame. -/
def omniRun (frames : List (List Byte)) : List OmniAction :=
  frames.map omniStep

/-- Function `LNDCReceiver` (`src/omnihandler.go`, lines 146-159): each message read
from the connection is forwarded on `OmniChan` with the 16-byte connection id
prepended (`msg = append(id[:], msg...)`). -/
def lndcFrame (id : List Byte) (msg : List Byte) : List Byte :=
  id ++ msg

/-- One entry of the slice returned by `SCon.TS.GetAllQchans` (fields of the
multi/qchan record that `BreakChannel` reads). -/
structure Qchan where
  PeerIdx : Nat
  KeyIdx : Nat
  AtHeight : Nat
  Op : OutPoint
  Value : Int
deriving Repr, DecidableEq

/-- Modelled from the spec: `uspv.OutPointToBytes`, whose source is not under
`src/` — the 36-byte channel-reference serialization of an outpoint (32-byte
hash plus 4-byte index). -/
def OutPointToBytes (op : OutPoint) : List Byte :=
  writeOutPoint op

/-- Outcome of `BreakChannel` after the two storage calls succeed: either it
returns normally (with the mutated `opBytes`) or the Go runtime panics with
an index-out-of-range fault. -/
inductive BreakResult where
  | ok (opBytes : List Byte)
  | panic
deriving Repr, DecidableEq

/-- Function `BreakChannel` (`src/omnihandler.go`, lines 45-75) after `GetPeerIdx`
returned `currentPeerIdx` and `GetAllQchans` returned `multis`: `opBytes`
starts as `nil`, the loop assigns it from the first entry whose `PeerIdx`
matches and breaks, and then `opBytes[0] = 0x00` executes unconditionally —
indexing an empty slice, which panics, when no entry matched. -/
def BreakChannel (currentPeerIdx : Nat) (multis : List Qchan) : BreakResult :=
  let opBytes : List Byte :=
    match multis.find? (fun m => m.PeerIdx == currentPeerIdx) with
    | some m => OutPointToBytes m.Op
    | none => []
  match opBytes with
  | [] => .panic
  | _ :: rest => .ok (0 :: rest)

end Omni

namespace Omni

open LnWire (Byte)

/-- Dispatch rule as the amended specification sentence describes it, for
comparison with `omniStep`: the sender identity is the first 16 bytes, byte
16 is the message-type id, the id selects the handler, and the handler
receives the remaining payload bytes — except the pubkey-request handler,
which is invoked with only the sender identity. -/
def specDispatch (sender : List Byte) (msgid : Byte) (payload : List Byte) :
    OmniAction :=
  if msgid = MSGID_TEXTCHAT then .text sender payload
  else if msgid = MSGID_PUBREQ then .pubReq sender
  else if msgid = MSGID_PUBRESP then .pubResp sender payload
  else if msgid = MSGID_MULTIDESC then .multiDesc sender payload
  else if msgid = MSGID_MULTIACK then .multiAck sender payload
  else if msgid = MSGID_CLOSEREQ then .closeReq sender payload
  else if msgid = MSGID_CLOSERESP then .closeResp sender payload
  else .unknown msgid

/-- A concrete inbound frame: 16 sender bytes, the pubkey-request id byte,
and two payload bytes (which `PubReqHandler` never receives). -/
def pubReqFrameEx : List Byte :=
  List.replicate 16 8 ++ [MSGID_PUBREQ, 9, 9]

end Omni

namespace LnWire

/-- A concrete 133-byte payload whose five segments carry distinct byte
values, so the offset at which `Decode` finds each field is observable. -/
def decodeInputEx : List Byte :=
  List.replicate 32 1 ++ List.replicate 4 0 ++ List.replicate 32 5 ++
    (2 :: List.replicate 32 7) ++ List.replicate 32 9

/-- A concrete well-formed outpoint. -/
def outPointEx : OutPoint :=
  ⟨List.replicate 32 1, 7⟩

/-- A concrete well-formed compressed public key. -/
def pubKeyEx : PublicKey :=
  ⟨2 :: List.replicate 32 7⟩

/-- A concrete well-formed message. -/
def msgEx : RevokeAndAck :=
  ⟨outPointEx, List.replicate 32 3, pubKeyEx, List.replicate 32 9⟩

/-- A message with semantically invalid fields: the channel reference is the
all-zero outpoint and the key bytes are not a well-formed compressed key. -/
def invalidMsgEx : RevokeAndAck :=
  ⟨⟨List.replicate 32 0, 0⟩, List.replicate 32 0, ⟨List.replicate 33 0⟩,
    List.replicate 32 0⟩

theorem readBytes_eq_some {n : Nat} {s a r : List Byte}
    (h : readBytes n s = some (a, r)) :
    n ≤ s.length ∧ a = s.take n ∧ r = s.drop n := by
  unfold readBytes at h
  split at h
  · rename_i hle
    simp only [Option.some.injEq, Prod.mk.injEq] at h
    exact ⟨hle, h.1.symm, h.2.symm⟩
  · cases h

theorem readBytes_exact {n : Nat} {bs rest : List Byte} (h : bs.length = n) :
    readBytes n (bs ++ rest) = some (bs, rest) := by
  unfold readBytes
  rw [if_pos (by simp [← h]), List.take_left' h, List.drop_left' h]

theorem beNat4_beBytes4 {n : Nat} (h : n < 2 ^ 32) :
    beNat4 (beBytes4 n) = n := by
  simp only [beBytes4, beNat4]
  omega

theorem beBytes4_length (n : Nat) : (beBytes4 n).length = 4 := by
  simp [beBytes4]

theorem parsePubKey_raw {kb : List Byte} (h1 : kb.length = 33)
    (h2 : kb.head? = some 2 ∨ kb.head? = some 3) :
    parsePubKey kb = some ⟨kb⟩ := by
  unfold parsePubKey
  rw [if_pos ⟨h1, h2⟩]

theorem RevokeAndAck.decode_segments (rest : List Byte) {h i rev kb nh : List Byte}
    (hh : h.length = 32) (hi : i.length = 4) (hrev : rev.length = 32)
    (hkb : kb.length = 33) (hk2 : kb.head? = some 2 ∨ kb.head? = some 3)
    (hnh : nh.length = 32) :
    RevokeAndAck.Decode (h ++ (i ++ (rev ++ (kb ++ (nh ++ rest))))) =
      some ⟨⟨h, beNat4 i⟩, rev, ⟨kb⟩, nh⟩ := by
  simp only [RevokeAndAck.Decode, readOutPoint, readPublicKey,
    readBytes_exact hh, readBytes_exact hi, readBytes_exact hrev,
    readBytes_exact hkb, readBytes_exact hnh, parsePubKey_raw hkb hk2,
    Option.bind_eq_bind, Option.some_bind, Option.pure_def]

theorem RevokeAndAck.decode_encode_of_wf (m : RevokeAndAck) (hm : m.wf) :
    RevokeAndAck.Decode m.Encode = some m := by
  obtain ⟨⟨hh, hidx⟩, hrev, ⟨hkl, hk2⟩, hnh⟩ := hm
  have he : m.Encode = m.ChannelPoint.hash ++ (beBytes4 m.ChannelPoint.index ++
      (m.Revocation ++ (m.NextRevocationKey.raw ++ (m.NextRevocationHash ++ [])))) := by
    simp [RevokeAndAck.Encode, writeOutPoint, PublicKey.serializeCompressed]
  rw [he, RevokeAndAck.decode_segments [] hh (beBytes4_length _) hrev hkl hk2 hnh,
    beNat4_beBytes4 hidx]

end LnWire

namespace LnWire

theorem RevokeAndAck.length_of_decode_some {s : List Byte} {m : RevokeAndAck}
    (hd : RevokeAndAck.Decode s = some m) : 133 ≤ s.length := by
  simp only [RevokeAndAck.Decode, readOutPoint, readPublicKey,
    Option.bind_eq_bind, Option.bind_eq_some, Option.pure_def,
    Option.some.injEq] at hd
  obtain ⟨⟨cp, s1⟩, h1, h2⟩ := hd
  obtain ⟨⟨hb, sh⟩, hr1, ⟨ib, si⟩, hr2, hcp⟩ := h1
  obtain ⟨⟨rev, s2⟩, hr3, ⟨k3, s3⟩, ⟨⟨kb, skb⟩, hr4, k5, hpk, hks⟩,
    ⟨nh, s4⟩, hr5, -⟩ := h2
  obtain ⟨l1, -, e1⟩ := readBytes_eq_some hr1
  obtain ⟨l2, -, e2⟩ := readBytes_eq_some hr2
  obtain ⟨l3, -, e3⟩ := readBytes_eq_some hr3
  obtain ⟨l4, -, e4⟩ := readBytes_eq_some hr4
  obtain ⟨l5, -, -⟩ := readBytes_eq_some hr5
  injection hcp with hcp1 hs1
  injection hks with hks1 hs3
  subst e1 e2 e3 e4 hs1 hs3
  simp only [List.length_drop] at l2 l3 l4 l5
  omega

end LnWire

/-- C1: decoding any byte stream holding fewer than 133 bytes fails with a
decode error (`none`).  `RevokeAndAck.Decode` is a pure function of the
input bytes, so the failed decode produces no message and mutates no channel
state. -/
theorem revokeAndAck_decode_truncated (s : List LnWire.Byte)
    (h : s.length < 133) :
    LnWire.RevokeAndAck.Decode s = none := by
  cases hd : LnWire.RevokeAndAck.Decode s with
  | none => rfl
  | some m =>
    exact absurd (LnWire.RevokeAndAck.length_of_decode_some hd) (by omega)

/-- Witness for C1 at a concrete 132-byte input. -/
theorem revokeAndAck_decode_truncated_witness :
    LnWire.RevokeAndAck.Decode (List.replicate 132 0) = none :=
  revokeAndAck_decode_truncated (List.replicate 132 0) (by simp)

/-- C2: `RevokeAndAck.MaxPayloadLength` returns exactly 133 for every
protocol version, and 133 is exactly the fixed payload size 36+32+33+32
occupied by an encoded message. -/
theorem revokeAndAck_maxPayloadLength_133 (pver : Nat)
    (m : LnWire.RevokeAndAck) (hm : m.wf) :
    LnWire.RevokeAndAck.MaxPayloadLength pver = 133 ∧
      m.Encode.length = 36 + 32 + 33 + 32 := by
  obtain ⟨⟨hh, -⟩, hrev, ⟨hkl, -⟩, hnh⟩ := hm
  refine ⟨rfl, ?_⟩
  simp only [LnWire.RevokeAndAck.Encode, LnWire.writeOutPoint,
    LnWire.PublicKey.serializeCompressed, List.length_append,
    LnWire.beBytes4_length, hh, hrev, hkl, hnh]

/-- Witness for C2 at protocol version 0 and a concrete message. -/
theorem revokeAndAck_maxPayloadLength_133_witness :
    LnWire.RevokeAndAck.MaxPayloadLength 0 = 133 ∧
      LnWire.msgEx.Encode.length = 36 + 32 + 33 + 32 :=
  revokeAndAck_maxPayloadLength_133 0 LnWire.msgEx (by decide)

/-- C3 counterexample: `RevokeAndAck.Validate` never returns an error: the
concrete message with an all-zero channel reference and a malformed key
passes, and no message at all is rejected — refuting the claim that some
semantically invalid message makes Validate return an error. -/
theorem revokeAndAck_validate_cex :
    LnWire.RevokeAndAck.Validate LnWire.invalidMsgEx = none ∧
      ¬ ∃ m : LnWire.RevokeAndAck, LnWire.RevokeAndAck.Validate m ≠ none :=
  ⟨rfl, fun ⟨_, hm⟩ => hm rfl⟩

/-- C3 (amended): `RevokeAndAck.Validate` performs no field-level checking:
it returns nil (no error) for every message, including one with a zero
channel reference or a malformed next-revocation public key. -/
theorem revokeAndAck_validate_always_nil (m : LnWire.RevokeAndAck) :
    LnWire.RevokeAndAck.Validate m = none :=
  rfl

/-- Witness for the amended C3 at a concrete invalid message. -/
theorem revokeAndAck_validate_always_nil_witness :
    LnWire.RevokeAndAck.Validate LnWire.invalidMsgEx = none :=
  revokeAndAck_validate_always_nil LnWire.invalidMsgEx

/-- C4: decoding the bytes produced by encoding a message yields the message
back.  The `wf` hypothesis carries the claim's requirement that the next
revocation key be a well-formed public key, together with the field typing
the Go struct enforces by construction (32-byte arrays, `uint32` index). -/
theorem revokeAndAck_decode_encode_id (m : LnWire.RevokeAndAck) (hm : m.wf) :
    LnWire.RevokeAndAck.Decode m.Encode = some m :=
  LnWire.RevokeAndAck.decode_encode_of_wf m hm

/-- Witness for C4 at a concrete message. -/
theorem revokeAndAck_decode_encode_id_witness :
    LnWire.RevokeAndAck.Decode LnWire.msgEx.Encode = some LnWire.msgEx :=
  revokeAndAck_decode_encode_id LnWire.msgEx (by decide)

set_option maxRecDepth 4096 in
/-- C5 counterexample: at the concrete 133-byte input `decodeInputEx`,
Decode succeeds and finds the disclosed secret at bytes 36..67 (all fives),
not at bytes 8..39 as an 8-byte channel reference would dictate: the channel
reference occupies 36 bytes, not 8. -/
theorem revokeAndAck_decode_offset_cex :
    LnWire.RevokeAndAck.Decode LnWire.decodeInputEx =
        some ⟨⟨List.replicate 32 1, 0⟩, List.replicate 32 5,
          ⟨2 :: List.replicate 32 7⟩, List.replicate 32 9⟩ ∧
      (LnWire.decodeInputEx.drop 8).take 32 ≠ List.replicate 32 5 := by
  decide

/-- C5 (amended): `RevokeAndAck.Decode` parses the payload as, in this
order: a channel reference occupying 36 bytes (a 32-byte hash followed by a
4-byte big-endian output index), a 32-byte disclosed secret, a 33-byte next
revocation public key, and a 32-byte next revocation hash. -/
theorem revokeAndAck_decode_layout (rest h i rev kb nh : List LnWire.Byte)
    (hh : h.length = 32) (hi : i.length = 4) (hrev : rev.length = 32)
    (hkb : kb.length = 33)
    (hk2 : kb.head? = some 2 ∨ kb.head? = some 3)
    (hnh : nh.length = 32) :
    LnWire.RevokeAndAck.Decode (h ++ i ++ rev ++ kb ++ nh ++ rest) =
      some ⟨⟨h, LnWire.beNat4 i⟩, rev, ⟨kb⟩, nh⟩ := by
  have hs := LnWire.RevokeAndAck.decode_segments rest hh hi hrev hkb hk2 hnh
  simpa [List.append_assoc] using hs

/-- Witness for the amended C5 at concrete segments. -/
theorem revokeAndAck_decode_layout_witness :
    LnWire.RevokeAndAck.Decode (List.replicate 32 1 ++ List.replicate 4 0 ++
        List.replicate 32 5 ++ (2 :: List.replicate 32 7) ++
        List.replicate 32 9 ++ []) =
      some ⟨⟨List.replicate 32 1, LnWire.beNat4 (List.replicate 4 0)⟩,
        List.replicate 32 5, ⟨2 :: List.replicate 32 7⟩,
        List.replicate 32 9⟩ :=
  revokeAndAck_decode_layout [] _ _ _ _ _ (by simp) (by simp) (by simp)
    (by simp) (Or.inl rfl) (by simp)

/-- C6: a RevokeAndAck whose 32-byte Revocation is all zeroes is well
formed: its encoding decodes back to it, Validate does not reject it, and
decode success does not depend on the revocation bytes at all — at this
layer the field is opaque, so the sentinel is never hash-checked as a
disclosed secret. -/
theorem revokeAndAck_zero_revocation_sentinel (op : LnWire.OutPoint)
    (k : LnWire.PublicKey) (nh : List LnWire.Byte)
    (hop : op.wf) (hk : k.wf) (hnh : nh.length = 32) :
    LnWire.RevokeAndAck.Decode
        (LnWire.RevokeAndAck.Encode ⟨op, List.replicate 32 0, k, nh⟩) =
        some ⟨op, List.replicate 32 0, k, nh⟩ ∧
      LnWire.RevokeAndAck.Validate ⟨op, List.replicate 32 0, k, nh⟩ = none ∧
      ∀ rev : List LnWire.Byte, rev.length = 32 →
        LnWire.RevokeAndAck.Decode
            (LnWire.RevokeAndAck.Encode ⟨op, rev, k, nh⟩) =
          some ⟨op, rev, k, nh⟩ := by
  refine ⟨?_, rfl, ?_⟩
  · exact LnWire.RevokeAndAck.decode_encode_of_wf _ ⟨hop, by simp, hk, hnh⟩
  · intro rev hrev
    exact LnWire.RevokeAndAck.decode_encode_of_wf _ ⟨hop, hrev, hk, hnh⟩

/-- Witness for C6 at a concrete outpoint, key and hash. -/
theorem revokeAndAck_zero_revocation_sentinel_witness :
    LnWire.RevokeAndAck.Decode
        (LnWire.RevokeAndAck.Encode
          ⟨LnWire.outPointEx, List.replicate 32 0, LnWire.pubKeyEx,
            List.replicate 32 9⟩) =
        some ⟨LnWire.outPointEx, List.replicate 32 0, LnWire.pubKeyEx,
          List.replicate 32 9⟩ ∧
      LnWire.RevokeAndAck.Validate
          ⟨LnWire.outPointEx, List.replicate 32 0, LnWire.pubKeyEx,
            List.replicate 32 9⟩ = none ∧
      ∀ rev : List LnWire.Byte, rev.length = 32 →
        LnWire.RevokeAndAck.Decode
            (LnWire.RevokeAndAck.Encode
              ⟨LnWire.outPointEx, rev, LnWire.pubKeyEx,
                List.replicate 32 9⟩) =
          some ⟨LnWire.outPointEx, rev, LnWire.pubKeyEx,
            List.replicate 32 9⟩ :=
  revokeAndAck_zero_revocation_sentinel LnWire.outPointEx LnWire.pubKeyEx
    (List.replicate 32 9) (by decide) (by decide) (by simp)

/-- C7: an inbound frame shorter than 17 bytes is treated as a decode error
by `OmniHandler`: the iteration yields the dropped-frame action, invokes no
message handler (so no channel state can be touched), and the loop continues
with the subsequent frames exactly as if the short frame had not arrived. -/
theorem omniHandler_short_frame_dropped (d : List LnWire.Byte)
    (rest : List (List LnWire.Byte)) (h : d.length < 17) :
    Omni.omniStep d = Omni.OmniAction.tooShort ∧
      (Omni.omniStep d).invokesHandler = false ∧
      Omni.omniRun (d :: rest) =
        Omni.OmniAction.tooShort :: Omni.omniRun rest := by
  have h1 : Omni.omniStep d = Omni.OmniAction.tooShort := by
    unfold Omni.omniStep
    rw [if_pos h]
  exact ⟨h1, by rw [h1]; rfl, by simp [Omni.omniRun, h1]⟩

/-- Witness for C7 at a concrete 3-byte frame followed by another frame. -/
theorem omniHandler_short_frame_dropped_witness :
    Omni.omniStep [1, 2, 3] = Omni.OmniAction.tooShort ∧
      (Omni.omniStep [1, 2, 3]).invokesHandler = false ∧
      Omni.omniRun ([1, 2, 3] :: [[0]]) =
        Omni.OmniAction.tooShort :: Omni.omniRun [[0]] :=
  omniHandler_short_frame_dropped [1, 2, 3] [[0]] (by simp)

/-- C8: an inbound frame of at least 17 bytes whose message-type byte
matches none of the seven known ids yields the logged-and-dropped unknown
action: no handler is invoked, and the receive loop continues with the
subsequent frames rather than aborting. -/
theorem omniHandler_unknown_id_dropped (d : List LnWire.Byte)
    (rest : List (List LnWire.Byte)) (hlen : 17 ≤ d.length)
    (hid : d.getD 16 0 ∉ [Omni.MSGID_TEXTCHAT, Omni.MSGID_PUBREQ,
      Omni.MSGID_PUBRESP, Omni.MSGID_MULTIDESC, Omni.MSGID_MULTIACK,
      Omni.MSGID_CLOSEREQ, Omni.MSGID_CLOSERESP]) :
    Omni.omniStep d = Omni.OmniAction.unknown (d.getD 16 0) ∧
      (Omni.omniStep d).invokesHandler = false ∧
      Omni.omniRun (d :: rest) =
        Omni.OmniAction.unknown (d.getD 16 0) :: Omni.omniRun rest := by
  simp only [List.mem_cons, List.not_mem_nil, or_false, not_or] at hid
  obtain ⟨n1, n2, n3, n4, n5, n6, n7⟩ := hid
  have hgd : (d.drop 16).getD 0 0 = d.getD 16 0 := by
    simp [List.getD_eq_getElem?_getD, List.getElem?_drop]
  have h1 : Omni.omniStep d = Omni.OmniAction.unknown (d.getD 16 0) := by
    unfold Omni.omniStep
    rw [if_neg (by omega)]
    simp only [hgd]
    rw [if_neg n1, if_neg n2, if_neg n3, if_neg n4, if_neg n5, if_neg n6,
      if_neg n7]
  exact ⟨h1, by rw [h1]; rfl, by simp [Omni.omniRun, h1]⟩

/-- Witness for C8 at a concrete 17-byte frame with id byte 9. -/
theorem omniHandler_unknown_id_dropped_witness :
    Omni.omniStep (List.replicate 16 0 ++ [9]) =
        Omni.OmniAction.unknown ((List.replicate 16 0 ++ [9]).getD 16 0) ∧
      (Omni.omniStep (List.replicate 16 0 ++ [9])).invokesHandler = false ∧
      Omni.omniRun ((List.replicate 16 0 ++ [9]) :: []) =
        Omni.OmniAction.unknown ((List.replicate 16 0 ++ [9]).getD 16 0) ::
          Omni.omniRun [] :=
  omniHandler_unknown_id_dropped (List.replicate 16 0 ++ [9]) []
    (by simp) (by decide)

/-- C9 counterexample: at the concrete pubkey-request frame carrying two
payload bytes, `OmniHandler` invokes `PubReqHandler` with only the sender
identity: the remaining bytes `msg[1:]` are not passed to the selected
handler, refuting the claim for that frame. -/
theorem omniHandler_pubreq_payload_cex :
    Omni.omniStep Omni.pubReqFrameEx =
        Omni.OmniAction.pubReq (List.replicate 16 8) ∧
      (Omni.omniStep Omni.pubReqFrameEx).payloadPassed ≠
        some (Omni.pubReqFrameEx.drop 17) := by
  decide

/-- C9 (amended): every frame of at least 17 bytes is dispatched by
decomposition into the 16-byte sender identity (bytes 0..15), the
message-type id (byte 16), and the payload (`msg[1:]`, bytes 17..), which is
passed to the handler selected by the id — except the pubkey-request
handler, which is invoked with only the sender identity; and `LNDCReceiver`
builds each forwarded frame by prepending the 16-byte connection id. -/
theorem omniHandler_envelope_dispatch (newdata id msg : List LnWire.Byte)
    (hlen : 17 ≤ newdata.length) (hid : id.length = 16) :
    Omni.omniStep newdata =
        Omni.specDispatch (newdata.take 16) (newdata.getD 16 0)
          (newdata.drop 17) ∧
      Omni.lndcFrame id msg = id ++ msg ∧
      (Omni.lndcFrame id msg).take 16 = id ∧
      (Omni.lndcFrame id msg).drop 16 = msg := by
  refine ⟨?_, rfl, List.take_left' hid, List.drop_left' hid⟩
  have hgd : (newdata.drop 16).getD 0 0 = newdata.getD 16 0 := by
    simp [List.getD_eq_getElem?_getD, List.getElem?_drop]
  have hdr : (newdata.drop 16).drop 1 = newdata.drop 17 := by
    simp [List.drop_drop]
  unfold Omni.omniStep Omni.specDispatch
  rw [if_neg (by omega)]
  simp only [hgd, hdr]

/-- Witness for the amended C9 at a concrete pubkey-response frame. -/
theorem omniHandler_envelope_dispatch_witness :
    Omni.omniStep (List.replicate 16 8 ++ [2, 5]) =
        Omni.specDispatch ((List.replicate 16 8 ++ [2, 5]).take 16)
          ((List.replicate 16 8 ++ [2, 5]).getD 16 0)
          ((List.replicate 16 8 ++ [2, 5]).drop 17) ∧
      Omni.lndcFrame (List.replicate 16 8) [2, 5] =
        List.replicate 16 8 ++ [2, 5] ∧
      (Omni.lndcFrame (List.replicate 16 8) [2, 5]).take 16 =
        List.replicate 16 8 ∧
      (Omni.lndcFrame (List.replicate 16 8) [2, 5]).drop 16 = [2, 5] :=
  omniHandler_envelope_dispatch (List.replicate 16 8 ++ [2, 5])
    (List.replicate 16 8) [2, 5] (by simp) (by simp)

/-- C10: `BreakChannel` is not total: when the storage lookups succeed but
no returned channel has `PeerIdx` equal to the current peer's index,
`opBytes` remains nil and the unguarded write `opBytes[0] = 0x00` indexes an
empty slice, so the function panics instead of returning an error. -/
theorem breakChannel_no_match_panics (idx : Nat) (multis : List Omni.Qchan)
    (h : ∀ m ∈ multis, m.PeerIdx ≠ idx) :
    Omni.BreakChannel idx multis = Omni.BreakResult.panic := by
  have hf : multis.find? (fun m => m.PeerIdx == idx) = none := by
    rw [List.find?_eq_none]
    intro m hm
    simpa using h m hm
  simp [Omni.BreakChannel, hf]

/-- Witness for C10: one channel is on file but it belongs to peer 1, and
the current peer index is 0. -/
theorem breakChannel_no_match_panics_witness :
    Omni.BreakChannel 0 [⟨1, 2, 3, LnWire.outPointEx, 4⟩] =
      Omni.BreakResult.panic :=
  breakChannel_no_match_panics 0 [⟨1, 2, 3, LnWire.outPointEx, 4⟩]
    (by decide)
